import Mathlib

/-!
Verification of the Study Buddy RAG chatbot (`app.py`).

The development shallowly embeds the program's logical core:
  * `extract_text_from_pdf` — per-page PDF text extraction with page markers;
  * `load_model` — the cached (once-per-credential) model-handle construction;
  * `ask_question` — prompt augmentation, history replay into a message
    sequence, and the bounded rate-limit retry loop;
  * the session-state transitions of `main` — document upload handling and
    per-question history growth.

External collaborators are modelled as oracles: a PDF is a parse outcome
holding the per-page extraction results (`none` for pages whose text
extraction yields nothing), and the generative model call is a function from
the sent message sequence and the attempt number to a success or an error
string.  The Streamlit resource cache backing `load_model` is modelled as an
explicit association list keyed by the credential, and `genai.configure` as a
counter of authentication side effects.
-/

namespace StudyBuddy

/-- Model name constant (`MODEL_NAME` in the source). -/
def MODEL_NAME : String := "gemini-2.5-flash"

/-- Retry budget (`MAX_RETRIES` in the source). -/
def MAX_RETRIES : Nat := 3

/-- Fixed inter-retry delay (`RETRY_DELAY_SECONDS` in the source). -/
def RETRY_DELAY_SECONDS : Nat := 15

/-- Behavioral system instruction (`SYSTEM_PROMPT` in the source). -/
def SYSTEM_PROMPT : String :=
  "\nYou are a focused and helpful Study Buddy assistant.\nYour job is to answer questions ONLY based on the document content provided to you.\nRules you must always follow:\n  - If the answer is in the document, provide a clear and concise answer.\n  - If the answer is NOT in the document, say: \"I couldn't find that in the document.\"\n  - Never make up information or use outside knowledge.\n  - Keep answers student-friendly: clear, simple, and to the point.\n"

/-- Message roles used in the conversation sent to the model. -/
inductive Role where
  | user
  | model
deriving DecidableEq, Repr

/-- One role-tagged message, as built by `ask_question` (`parts` is the
Python list of message parts; the source always uses a single part). -/
structure Message where
  role : Role
  parts : List String
deriving DecidableEq, Repr

/-- The augmented prompt built at the top of `ask_question`: the f-string
with the document text and the question substituted in. -/
def buildPrompt (document_text question : String) : String :=
  "\nHere is the document you should use to answer questions:\n\n=== DOCUMENT START ===\n"
    ++ document_text
    ++ "\n=== DOCUMENT END ===\n\nBased ONLY on the document above, please answer this question:\n"
    ++ question
    ++ "\n"

/-- The message sequence built by `ask_question`: the history-replay loop
(a fold appending a user/model pair per past turn) followed by the final
user message carrying the augmented prompt. -/
def buildMessages (chat_history : List (String × String)) (prompt : String) : List Message :=
  (chat_history.foldl
    (fun ms qa => ms ++ [⟨Role.user, [qa.1]⟩, ⟨Role.model, [qa.2]⟩]) [])
    ++ [⟨Role.user, [prompt]⟩]

/-- The message sequence `ask_question` sends to the model for a given
question, document text and history. -/
def sentMessages (question document_text : String)
    (chat_history : List (String × String)) : List Message :=
  buildMessages chat_history (buildPrompt document_text question)

/-- Specification-side rendering of history replay: one user message with
the past question then one model message with the past answer, per turn,
in chronological order. -/
def replayHistory : List (String × String) → List Message
  | [] => []
  | (q, a) :: rest => ⟨Role.user, [q]⟩ :: ⟨Role.model, [a]⟩ :: replayHistory rest

/-- Does the character list `s` start with `p`? (Executable helper used to
express substring occurrence.) -/
def listStartsWith : List Char → List Char → Bool
  | [], _ => true
  | _ :: _, [] => false
  | p :: ps, c :: cs => p == c && listStartsWith ps cs

/-- Does `pat` occur as a contiguous subsequence of `s`?  (Counterpart of
Python's `in` operator on strings.) -/
def listOccurs (s pat : List Char) : Bool :=
  match s with
  | [] => listStartsWith pat []
  | _ :: rest => listStartsWith pat s || listOccurs rest pat

/-- String containment, Python's `pat in s`. -/
def strContains (s pat : String) : Bool :=
  listOccurs s.data pat.data

/-- Python's `str.lower()` (ASCII-adequate, as in the error messages the
source inspects). -/
def lowerStr (s : String) : String :=
  String.mk (s.data.map Char.toLower)

/-- The rate-limit test of `ask_question`:
`"429" in error_message or "quota" in error_message.lower()`. -/
def isRateLimitError (error_message : String) : Bool :=
  strContains error_message "429" || strContains (lowerStr error_message) "quota"

/-- Outcome of one `model.generate_content(messages)` call: the generated
text, or the string of the raised exception. -/
inductive GenResult where
  | ok (text : String)
  | err (msg : String)
deriving DecidableEq, Repr

/-- Observable trace of one `ask_question` run: the returned value (`none`
models Python falling off the retry loop without returning), the number of
`generate_content` attempts made, and the sequence of `time.sleep`
durations performed. -/
structure AskOutcome where
  result : Option String
  attemptsMade : Nat
  sleeps : List Nat
deriving DecidableEq, Repr

/-- The fixed message returned when the retry budget is exhausted. -/
def rateLimitExhaustedMsg : String :=
  "❌ Rate limit exceeded after multiple retries. Please wait a minute and try again. Tip: Each student should use their own API key!"

/-- The message returned on a non-rate-limit failure, embedding the raw
error text. -/
def unexpectedErrorMsg (error_message : String) : String :=
  "❌ Unexpected error: " ++ error_message

/-- The retry loop of `ask_question` (`for attempt in range(1, MAX_RETRIES + 1)`),
with the per-attempt call outcome supplied by the oracle `gen`.  The
remaining attempt numbers, the count of attempts made so far and the sleeps
performed so far are threaded explicitly. -/
def attemptLoop (gen : Nat → GenResult) : List Nat → Nat → List Nat → AskOutcome
  | [], made, sleeps => ⟨none, made, sleeps⟩
  | attempt :: rest, made, sleeps =>
    match gen attempt with
    | .ok text => ⟨some text, made + 1, sleeps⟩
    | .err e =>
      if isRateLimitError e then
        if attempt < MAX_RETRIES then
          attemptLoop gen rest (made + 1) (sleeps ++ [RETRY_DELAY_SECONDS])
        else
          ⟨some rateLimitExhaustedMsg, made + 1, sleeps⟩
      else
        ⟨some (unexpectedErrorMsg e), made + 1, sleeps⟩

/-- `ask_question`: build the augmented prompt and the message sequence,
then run the bounded retry loop around `model.generate_content`. -/
def ask_question (gen : List Message → Nat → GenResult) (question document_text : String)
    (chat_history : List (String × String)) : AskOutcome :=
  attemptLoop (gen (sentMessages question document_text chat_history))
    (List.range' 1 MAX_RETRIES) 0 []

/-- A PDF payload as seen through `pypdf`: either a parse failure (the
`except` branch fires, with the exception text) or a list of pages, each
yielding `page.extract_text()`'s result (`none` for a `None` return). -/
inductive PdfFile where
  | ok (pages : List (Option String))
  | bad (msg : String)
deriving DecidableEq, Repr

/-- The page marker f-string `"\n--- Page {page_number + 1} ---\n"`. -/
def pageMarker (n : Nat) : String :=
  "\n--- Page " ++ toString n ++ " ---\n"

/-- The extraction loop of `extract_text_from_pdf`: enumerate pages from 0,
append a marker and the page text for every page whose text is truthy. -/
def extractLoop : List (Option String) → Nat → String → String
  | [], _, acc => acc
  | page :: rest, page_number, acc =>
    match page with
    | some page_text =>
      if page_text = "" then
        extractLoop rest (page_number + 1) acc
      else
        extractLoop rest (page_number + 1) (acc ++ pageMarker (page_number + 1) ++ page_text)
    | none => extractLoop rest (page_number + 1) acc

/-- `extract_text_from_pdf`: concatenate marker-prefixed page texts, or
return the empty string when the payload cannot be parsed. -/
def extract_text_from_pdf : PdfFile → String
  | .ok pages => extractLoop pages 0 ""
  | .bad _ => ""

/-- Truthiness of one page's extraction result (Python `if page_text:`). -/
def pageTruthy : Option String → Bool
  | some t => !(t == "")
  | none => false

/-- Concatenation of a list of strings, in order. -/
def joinAll : List String → String
  | [] => ""
  | s :: rest => s ++ joinAll rest

/-- Specification-side extraction result: the concatenation, in ascending
document order, of each extractable page's text preceded by the marker
naming its 1-based page number, with nothing emitted for pages that yield
no text. -/
def extractSpec (pages : List (Option String)) : String :=
  joinAll (pages.enum.filterMap fun ip =>
    match ip.2 with
    | some t => if t = "" then none else some (pageMarker (ip.1 + 1) ++ t)
    | none => none)

/-- The Streamlit session state the source reads and writes: the stored
document text, the last-loaded filename, and the chat history (all `none` /
empty when unset). -/
structure SessionState where
  document_text : Option String
  last_file : Option String
  chat_history : List (String × String)
deriving DecidableEq, Repr

/-- The upload handler of `main` (sidebar): re-extract only when no
document is stored or the uploaded file's name differs from `last_file`;
store the new document, filename and an empty history only when extraction
yields non-empty text.  The boolean reports whether extraction ran. -/
def handleUpload (s : SessionState) (name : String) (file : PdfFile) : SessionState × Bool :=
  if s.document_text = none ∨ s.last_file ≠ some name then
    let document_text := extract_text_from_pdf file
    if document_text ≠ "" then
      (⟨some document_text, some name, []⟩, true)
    else
      (s, true)
  else
    (s, false)

/-- The per-question chat step of `main`: guarded by a stored document, a
non-empty API key and a non-empty question, call `ask_question` and append
the (question, answer) pair to the history.  The `none` result branch is
unreachable (the retry loop always returns) and leaves the state unchanged. -/
def handleQuestion (gen : List Message → Nat → GenResult) (api_key : String)
    (s : SessionState) (user_question : String) : SessionState :=
  match s.document_text with
  | none => s
  | some document_text =>
    if api_key = "" then s
    else if user_question = "" then s
    else
      match (ask_question gen user_question document_text s.chat_history).result with
      | some answer => { s with chat_history := s.chat_history ++ [(user_question, answer)] }
      | none => s

/-- A constructed model handle: the fixed model name and system
instruction passed to `genai.GenerativeModel`. -/
structure ModelHandle where
  model_name : String
  system_instruction : String
deriving DecidableEq, Repr

/-- Global `genai` configuration state: the last configured key and the
number of `genai.configure` calls (the authentication side effect). -/
structure GenaiConfig where
  configured_key : Option String
  configure_count : Nat
deriving DecidableEq, Repr

/-- `genai.configure(api_key=...)`. -/
def genaiConfigure (api_key : String) (g : GenaiConfig) : GenaiConfig :=
  ⟨some api_key, g.configure_count + 1⟩

/-- Session-wide state around `load_model`: the `genai` configuration and
the `st.cache_resource` cache, an association list keyed by the credential
argument. -/
structure CacheState where
  genai : GenaiConfig
  cache : List (String × ModelHandle)
deriving DecidableEq, Repr

/-- Lookup in the resource cache by credential value. -/
def cacheLookup (k : String) : List (String × ModelHandle) → Option ModelHandle
  | [] => none
  | (k', h) :: rest => if k' = k then some h else cacheLookup k rest

/-- `load_model` under `st.cache_resource`: return the cached handle for
this credential if present; otherwise run the body (configure `genai`,
construct the handle) and cache the result. -/
def load_model (api_key : String) (st : CacheState) : ModelHandle × CacheState :=
  match cacheLookup api_key st.cache with
  | some handle => (handle, st)
  | none =>
    let g := genaiConfigure api_key st.genai
    let model : ModelHandle := ⟨MODEL_NAME, SYSTEM_PROMPT⟩
    (model, ⟨g, st.cache ++ [(api_key, model)]⟩)

/-- The instruction sentence of the augmented prompt directing the model to
answer strictly from the delimited content. -/
def instructionLine : String :=
  "Based ONLY on the document above, please answer this question:"

/-- The document text embedded between the explicit start/end delimiters,
as it appears inside the augmented prompt. -/
def delimitedBlock (document_text : String) : String :=
  "=== DOCUMENT START ===\n" ++ document_text ++ "\n=== DOCUMENT END ==="

/-- The prompt layout as the claim states it: the delimited document,
followed by the literal question, followed by the instruction — in that
order. -/
def PromptOrderClaimed (document_text question : String) : Prop :=
  ∃ u v w x : String,
    buildPrompt document_text question
      = u ++ delimitedBlock document_text ++ v ++ question ++ w ++ instructionLine ++ x

/-- The prompt layout as the code builds it: the delimited document,
followed by the instruction, followed by the literal question — in that
order. -/
def PromptOrderActual (document_text question : String) : Prop :=
  ∃ u v w x : String,
    buildPrompt document_text question
      = u ++ delimitedBlock document_text ++ v ++ instructionLine ++ w ++ question ++ x

/-- Decidable check that `a`, `b`, `c` occur in `s` in this order, each
occurrence starting at or after the end of the previous one. -/
def ordered3 (s a b c : List Char) : Bool :=
  (List.range (s.length + 1)).any fun i =>
    listStartsWith a (s.drop i) &&
    (List.range (s.length + 1)).any fun j =>
      decide (i + a.length ≤ j) && listStartsWith b (s.drop j) &&
      (List.range (s.length + 1)).any fun k =>
        decide (j + b.length ≤ k) && listStartsWith c (s.drop k)

theorem buildMessages_foldl (chat_history : List (String × String)) (acc : List Message) :
    chat_history.foldl
      (fun ms qa => ms ++ [⟨Role.user, [qa.1]⟩, ⟨Role.model, [qa.2]⟩]) acc
      = acc ++ replayHistory chat_history := by
  induction chat_history generalizing acc with
  | nil => simp [replayHistory]
  | cons qa rest ih =>
    cases qa with
    | mk q a => simp [replayHistory, ih, List.append_assoc]

theorem buildMessages_eq (chat_history : List (String × String)) (prompt : String) :
    buildMessages chat_history prompt
      = replayHistory chat_history ++ [⟨Role.user, [prompt]⟩] := by
  simp [buildMessages, buildMessages_foldl]

theorem replayHistory_append (h₁ h₂ : List (String × String)) :
    replayHistory (h₁ ++ h₂) = replayHistory h₁ ++ replayHistory h₂ := by
  induction h₁ with
  | nil => simp [replayHistory]
  | cons qa rest ih =>
    cases qa with
    | mk q a => simp [replayHistory, ih]

theorem replayHistory_length (chat_history : List (String × String)) :
    (replayHistory chat_history).length = 2 * chat_history.length := by
  induction chat_history with
  | nil => simp [replayHistory]
  | cons qa rest ih =>
    cases qa with
    | mk q a => simp [replayHistory, ih]; omega

/-- C1: for every history of n past turns and every question, `ask_question`
sends the model a message sequence of length `2*n + 1`: for each past turn in
chronological order one user message with the past question then one model
message with the past answer, ending with one final user message carrying the
newly built augmented prompt. -/
theorem c1_message_sequence (question document_text : String)
    (chat_history : List (String × String)) :
    sentMessages question document_text chat_history
      = replayHistory chat_history
        ++ [⟨Role.user, [buildPrompt document_text question]⟩] ∧
    (sentMessages question document_text chat_history).length
      = 2 * chat_history.length + 1 := by
  constructor
  · unfold sentMessages
    exact buildMessages_eq chat_history (buildPrompt document_text question)
  · unfold sentMessages
    rw [buildMessages_eq]
    simp [replayHistory_length]

theorem cacheLookup_append_self (k : String) (h : ModelHandle)
    (l : List (String × ModelHandle)) (hl : cacheLookup k l = none) :
    cacheLookup k (l ++ [(k, h)]) = some h := by
  induction l with
  | nil => simp [cacheLookup]
  | cons p rest ih =>
    cases p with
    | mk k' h' =>
      by_cases hk : k' = k
      · simp [cacheLookup, hk] at hl
      · simp only [List.cons_append]
        simp [cacheLookup, hk] at hl ⊢
        exact ih hl

theorem load_model_found (api_key : String) (st : CacheState) (h : ModelHandle)
    (hc : cacheLookup api_key st.cache = some h) : load_model api_key st = (h, st) := by
  unfold load_model
  rw [hc]

theorem load_model_miss (api_key : String) (st : CacheState)
    (hc : cacheLookup api_key st.cache = none) :
    load_model api_key st
      = (⟨MODEL_NAME, SYSTEM_PROMPT⟩,
         ⟨genaiConfigure api_key st.genai,
          st.cache ++ [(api_key, ⟨MODEL_NAME, SYSTEM_PROMPT⟩)]⟩) := by
  unfold load_model
  rw [hc]

/-- C9: model-handle construction is idempotent per credential — a second
`load_model` call with the same credential returns the identical handle and
leaves the whole cache/configuration state (in particular the count of
`genai.configure` authentication side effects) unchanged. -/
theorem c9_load_model_idempotent (api_key : String) (s0 : CacheState) :
    (load_model api_key (load_model api_key s0).2).1 = (load_model api_key s0).1 ∧
    (load_model api_key (load_model api_key s0).2).2 = (load_model api_key s0).2 := by
  cases hc : cacheLookup api_key s0.cache with
  | some h =>
    simp [load_model_found api_key s0 h hc]
  | none =>
    have h1 := load_model_miss api_key s0 hc
    have h2 := load_model_found api_key
      ⟨genaiConfigure api_key s0.genai,
       s0.cache ++ [(api_key, ⟨MODEL_NAME, SYSTEM_PROMPT⟩)]⟩
      ⟨MODEL_NAME, SYSTEM_PROMPT⟩
      (cacheLookup_append_self api_key _ s0.cache hc)
    simp [h1, h2]

/-- C7: after any sequence of completed turns, loading a document whose
filename differs from the stored one (and whose extraction yields non-empty
text) resets the history to length 0 and replaces the document text with the
new extraction result exactly. -/
theorem c7_new_document_resets (s : SessionState) (name : String) (file : PdfFile)
    (hname : s.last_file ≠ some name)
    (htext : extract_text_from_pdf file ≠ "") :
    (handleUpload s name file).1
      = ⟨some (extract_text_from_pdf file), some name, []⟩ := by
  unfold handleUpload
  rw [if_pos (Or.inr hname)]
  simp [htext]

/-- C7 witness: a concrete completed-turns state followed by a new document
load. -/
theorem c7_new_document_resets_witness :
    (handleUpload ⟨some "old text", some "a.pdf", [("q1", "a1"), ("q2", "a2")]⟩
        "b.pdf" (.ok [some "T"])).1
      = ⟨some (extract_text_from_pdf (.ok [some "T"])), some "b.pdf", []⟩ :=
  c7_new_document_resets _ _ _ (by decide) (by decide)

/-- C8: an unparseable PDF makes `extract_text_from_pdf` return the empty
string instead of raising, and the upload handler stores nothing: the whole
previous session state (document text, filename, history) stays in place. -/
theorem c8_bad_pdf_state_preserved (msg : String) (s : SessionState) (name : String) :
    extract_text_from_pdf (.bad msg) = "" ∧
    (handleUpload s name (.bad msg)).1 = s := by
  constructor
  · rfl
  · unfold handleUpload
    by_cases hcond : s.document_text = none ∨ s.last_file ≠ some name
    · rw [if_pos hcond]
      simp [extract_text_from_pdf]
    · rw [if_neg hcond]

/-- C10: uploading a file whose name equals the stored last-loaded filename
(with a document stored) performs no re-extraction and leaves the document
text, filename and chat history unchanged, whatever the new file's bytes. -/
theorem c10_same_filename_no_reload (s : SessionState) (name : String)
    (file : PdfFile) (d : String)
    (hdoc : s.document_text = some d) (hname : s.last_file = some name) :
    handleUpload s name file = (s, false) := by
  unfold handleUpload
  rw [if_neg]
  intro hcond
  rcases hcond with h | h
  · rw [hdoc] at h
    exact Option.noConfusion h
  · exact h hname

/-- C10 witness: same filename, different bytes — nothing changes and no
extraction runs. -/
theorem c10_same_filename_no_reload_witness :
    handleUpload ⟨some "old text", some "a.pdf", [("q1", "a1")]⟩ "a.pdf"
        (.ok [some "completely different bytes"])
      = (⟨some "old text", some "a.pdf", [("q1", "a1")]⟩, false) :=
  c10_same_filename_no_reload _ _ _ "old text" rfl rfl

theorem range_one_to_max : List.range' 1 MAX_RETRIES = [1, 2, 3] := by decide

/-- C2: if every model-call attempt fails with a rate-limit-signature error,
`ask_question` makes exactly 3 attempts, sleeps the fixed 15-unit delay
between consecutive attempts, and returns the fixed exhausted-retry message. -/
theorem c2_rate_limit_exhaustion (gen : List Message → Nat → GenResult)
    (question document_text : String) (chat_history : List (String × String))
    (hg : ∀ a, 1 ≤ a → a ≤ MAX_RETRIES →
      ∃ e, gen (sentMessages question document_text chat_history) a = .err e ∧
        isRateLimitError e = true) :
    ask_question gen question document_text chat_history
      = ⟨some rateLimitExhaustedMsg, 3, [15, 15]⟩ := by
  obtain ⟨e1, he1, hr1⟩ := hg 1 (by decide) (by decide)
  obtain ⟨e2, he2, hr2⟩ := hg 2 (by decide) (by decide)
  obtain ⟨e3, he3, hr3⟩ := hg 3 (by decide) (by decide)
  unfold ask_question
  rw [range_one_to_max]
  simp [attemptLoop, he1, he2, he3, hr1, hr2, hr3, MAX_RETRIES, RETRY_DELAY_SECONDS]

/-- C2 witness: every attempt raises a 429 error. -/
theorem c2_rate_limit_exhaustion_witness :
    ask_question (fun _ _ => GenResult.err "429 Too Many Requests") "q" "doc" []
      = ⟨some rateLimitExhaustedMsg, 3, [15, 15]⟩ :=
  c2_rate_limit_exhaustion _ _ _ _
    (fun _ _ _ => ⟨"429 Too Many Requests", rfl, by decide⟩)

/-- C3: if the first model-call attempt fails with an error that is not a
rate-limit signature, `ask_question` makes exactly 1 attempt, sleeps never,
and returns the message embedding the raw error text verbatim. -/
theorem c3_non_rate_limit_no_retry (gen : List Message → Nat → GenResult)
    (question document_text : String) (chat_history : List (String × String))
    (e : String)
    (he : gen (sentMessages question document_text chat_history) 1 = .err e)
    (hnr : isRateLimitError e = false) :
    ask_question gen question document_text chat_history
      = ⟨some (unexpectedErrorMsg e), 1, []⟩ := by
  unfold ask_question
  rw [range_one_to_max]
  simp [attemptLoop, he, hnr]

/-- C3 witness: the first attempt raises a non-rate-limit error. -/
theorem c3_non_rate_limit_no_retry_witness :
    ask_question (fun _ _ => GenResult.err "boom") "q" "doc" []
      = ⟨some (unexpectedErrorMsg "boom"), 1, []⟩ :=
  c3_non_rate_limit_no_retry _ _ _ _ "boom" rfl (by decide)

theorem string_empty_append (s : String) : "" ++ s = s := by
  apply String.ext
  rw [String.data_append]
  rfl

theorem extractLoop_eq (pages : List (Option String)) (idx : Nat) (acc : String) :
    extractLoop pages idx acc
      = acc ++ joinAll ((List.enumFrom idx pages).filterMap fun ip =>
          match ip.2 with
          | some t => if t = "" then none else some (pageMarker (ip.1 + 1) ++ t)
          | none => none) := by
  induction pages generalizing idx acc with
  | nil => simp [extractLoop, joinAll, List.enumFrom, String.append_empty]
  | cons p rest ih =>
    cases p with
    | none => simp [extractLoop, List.enumFrom, ih]
    | some t =>
      by_cases ht : t = ""
      · simp [extractLoop, List.enumFrom, ht, ih]
      · simp [extractLoop, List.enumFrom, ht, ih, joinAll, String.append_assoc]

/-- C5: for every parseable PDF with at least one extractable text page, the
extraction result is the concatenation, in ascending document order, of each
extractable page's text preceded by its 1-based page marker, with nothing
emitted for pages yielding no text. -/
theorem c5_extraction_layout (pages : List (Option String))
    (hp : ∃ p ∈ pages, pageTruthy p = true) :
    extract_text_from_pdf (.ok pages) = extractSpec pages := by
  clear hp
  show extractLoop pages 0 "" = extractSpec pages
  unfold extractSpec
  rw [show pages.enum = List.enumFrom 0 pages from rfl]
  rw [extractLoop_eq, string_empty_append]

/-- C5 witness: a PDF with extractable, empty-text and image-only pages. -/
theorem c5_extraction_layout_witness :
    (∃ p ∈ [some "hello", none, some "", some "world"], pageTruthy p = true) ∧
    extract_text_from_pdf (.ok [some "hello", none, some "", some "world"])
      = extractSpec [some "hello", none, some "", some "world"] :=
  ⟨by decide, c5_extraction_layout _ (by decide)⟩

/-- C6: when `ask_question` returns an error string for a turn (the
exhausted-retry message or the unexpected-error message), the turn is still
appended to the history with the error string as its answer, and a later
question replays it as a prior model message exactly like a real answer. -/
theorem c6_error_stored_as_answer (gen : List Message → Nat → GenResult)
    (api_key : String) (s : SessionState)
    (user_question answer document_text nextPrompt : String)
    (hdoc : s.document_text = some document_text)
    (hkey : api_key ≠ "") (hq : user_question ≠ "")
    (hres : (ask_question gen user_question document_text s.chat_history).result
      = some answer)
    (herr : answer = rateLimitExhaustedMsg ∨ ∃ e, answer = unexpectedErrorMsg e) :
    (handleQuestion gen api_key s user_question).chat_history
      = s.chat_history ++ [(user_question, answer)] ∧
    buildMessages (handleQuestion gen api_key s user_question).chat_history nextPrompt
      = replayHistory s.chat_history
        ++ [⟨Role.user, [user_question]⟩, ⟨Role.model, [answer]⟩,
            ⟨Role.user, [nextPrompt]⟩] := by
  clear herr
  have hstate : handleQuestion gen api_key s user_question
      = { s with chat_history := s.chat_history ++ [(user_question, answer)] } := by
    unfold handleQuestion
    rw [hdoc]
    simp [hkey, hq, hres]
  constructor
  · rw [hstate]
  · rw [hstate]
    show buildMessages (s.chat_history ++ [(user_question, answer)]) nextPrompt = _
    rw [buildMessages_eq, replayHistory_append]
    simp [replayHistory]

/-- C6 witness: a non-rate-limit failure on a session with one prior turn;
the error text lands in history and is replayed as a model message. -/
theorem c6_error_stored_as_answer_witness :
    (handleQuestion (fun _ _ => GenResult.err "boom") "key"
        ⟨some "doc", none, [("q0", "a0")]⟩ "hi").chat_history
      = [("q0", "a0")] ++ [("hi", unexpectedErrorMsg "boom")] ∧
    buildMessages
        (handleQuestion (fun _ _ => GenResult.err "boom") "key"
          ⟨some "doc", none, [("q0", "a0")]⟩ "hi").chat_history "next"
      = replayHistory [("q0", "a0")]
        ++ [⟨Role.user, ["hi"]⟩, ⟨Role.model, [unexpectedErrorMsg "boom"]⟩,
            ⟨Role.user, ["next"]⟩] :=
  c6_error_stored_as_answer _ "key" _ "hi" _ "doc" "next" rfl (by decide) (by decide)
    (by decide) (Or.inr ⟨"boom", rfl⟩)

theorem listStartsWith_self_append (p r : List Char) :
    listStartsWith p (p ++ r) = true := by
  induction p with
  | nil => rfl
  | cons c cs ih => simp [listStartsWith, ih]

theorem any_range_of (n i : Nat) (f : Nat → Bool) (hi : i < n) (hf : f i = true) :
    (List.range n).any f = true :=
  List.any_eq_true.mpr ⟨i, List.mem_range.mpr hi, hf⟩

theorem ordered3_of_drops (s a b c : List Char) (i j k : Nat)
    (hi : i ≤ s.length) (hj : j ≤ s.length) (hk : k ≤ s.length)
    (hij : i + a.length ≤ j) (hjk : j + b.length ≤ k)
    (ha : listStartsWith a (s.drop i) = true)
    (hb : listStartsWith b (s.drop j) = true)
    (hc : listStartsWith c (s.drop k) = true) :
    ordered3 s a b c = true := by
  unfold ordered3
  apply any_range_of _ i _ (Nat.lt_succ_of_le hi)
  simp only [ha, Bool.true_and]
  apply any_range_of _ j _ (Nat.lt_succ_of_le hj)
  simp only [hb, decide_eq_true hij, Bool.true_and]
  apply any_range_of _ k _ (Nat.lt_succ_of_le hk)
  simp only [hc, decide_eq_true hjk, Bool.true_and]

theorem ordered3_decomp (p a m1 b m2 c t : List Char) :
    ordered3 (p ++ (a ++ (m1 ++ (b ++ (m2 ++ (c ++ t)))))) a b c = true := by
  have e2 : p ++ (a ++ (m1 ++ (b ++ (m2 ++ (c ++ t)))))
      = (p ++ a ++ m1) ++ (b ++ (m2 ++ (c ++ t))) := by
    simp [List.append_assoc]
  have e3 : p ++ (a ++ (m1 ++ (b ++ (m2 ++ (c ++ t)))))
      = (p ++ a ++ m1 ++ b ++ m2) ++ (c ++ t) := by
    simp [List.append_assoc]
  apply ordered3_of_drops _ _ _ _ p.length (p ++ a ++ m1).length
    (p ++ a ++ m1 ++ b ++ m2).length
  · simp only [List.length_append]
    omega
  · simp only [List.length_append]
    omega
  · simp only [List.length_append]
    omega
  · simp only [List.length_append]
    omega
  · simp only [List.length_append]
    omega
  · rw [List.drop_left]
    exact listStartsWith_self_append a _
  · rw [e2, List.drop_left]
    exact listStartsWith_self_append b _
  · rw [e3, List.drop_left]
    exact listStartsWith_self_append c _

theorem ordered3_of_eq (s u a v b w c x : String)
    (h : s = u ++ a ++ v ++ b ++ w ++ c ++ x) :
    ordered3 s.data a.data b.data c.data = true := by
  subst h
  have hd : (u ++ a ++ v ++ b ++ w ++ c ++ x).data
      = u.data ++ (a.data ++ (v.data ++ (b.data ++ (w.data ++ (c.data ++ x.data))))) := by
    simp [String.data_append, List.append_assoc]
  rw [hd]
  exact ordered3_decomp u.data a.data v.data b.data w.data c.data x.data

set_option maxRecDepth 100000 in
/-- C4 counterexample: at document text `"D"` and question `"zzqz"`, the
prompt does NOT place the delimited document, then the question, then the
instruction in that order — the instruction precedes the question. -/
theorem c4_order_counterexample : ¬ PromptOrderClaimed "D" "zzqz" := by
  intro hcl
  obtain ⟨u, v, w, x, h⟩ := hcl
  have ht := ordered3_of_eq _ u (delimitedBlock "D") v "zzqz" w instructionLine x h
  have hf : ordered3 (buildPrompt "D" "zzqz").data (delimitedBlock "D").data
      ("zzqz" : String).data instructionLine.data = false := by decide
  rw [hf] at ht
  exact Bool.false_ne_true ht

set_option maxRecDepth 100000 in
theorem buildPrompt_decomp (document_text question : String) :
    buildPrompt document_text question
      = "\nHere is the document you should use to answer questions:\n\n"
        ++ delimitedBlock document_text ++ "\n\n" ++ instructionLine ++ "\n"
        ++ question ++ "\n" := by
  apply String.ext
  unfold buildPrompt delimitedBlock instructionLine
  simp [String.data_append, List.append_assoc, List.cons_append, List.nil_append]

/-- C4 (amended): the augmented prompt embeds the entire document text
between the explicit start/end delimiters, followed by the instruction to
answer strictly from the delimited content, followed by the literal question
— in that order; an empty document text is still embedded between the
delimiters and an empty question is passed through unchanged (both are
instances of this statement). -/
theorem c4_prompt_layout (document_text question : String) :
    PromptOrderActual document_text question :=
  ⟨"\nHere is the document you should use to answer questions:\n\n", "\n\n", "\n", "\n",
    buildPrompt_decomp document_text question⟩

end StudyBuddy
